import Mathlib

/-!
Verification development for the frame-interface module of the RMS repository
(RMS/Formats/FrameInterface.py).  The Python classes InputTypeFF, InputTypeVideo,
InputTypeUWOVid and InputTypeImages are shallowly embedded as Lean state types with
explicit state-passing operations.  Machine pixels are modelled as Nat, Python ints
as Int (Lean's Int `/` and `%` are Euclidean and agree with Python's floor division
and modulo for the nonnegative divisors used here), and the float64 avepixel
accumulator is modelled as exact rationals.  Fallible paths (Python exceptions)
are modelled with Except.
-/

/-- A decoded grayscale frame: the flattened pixel grid (row-major), one Nat per pixel. -/
abbrev Frame : Type := List Nat

/-- Elementwise running maximum, the `np.max([maxpixel, frame], axis=0)` step. -/
def maxMerge (mp f : Frame) : Frame := List.zipWith max mp f

/-- One `avepixel += frame.astype(np.float64)/frames_to_read` step: each pixel of the
float accumulator is incremented by the frame value divided by `F`. -/
def aveAcc (F : ℚ) (ap : List ℚ) (f : Frame) : List ℚ :=
  List.zipWith (fun a v => a + (v : ℚ)/F) ap f

/-- C-style truncation toward zero of a float value, as performed by numpy's
`astype` from float64 to an integer dtype. -/
def truncToInt (q : ℚ) : Int := if q < 0 then -((-q).floor) else q.floor

/-- Cast of one float accumulator cell to an unsigned integer dtype of `depth` bits:
truncation toward zero, then wraparound modulo 2^depth (numpy astype behaviour). -/
def castDepth (depth : Nat) (q : ℚ) : Nat := ((truncToInt q) % ((2:Int)^depth)).toNat

/-- Lookup in the model of the Python `self.cache` dict (which this module only ever
rebuilds as `{}` followed by a single insertion, so it is an association list). -/
def cacheFind {κ α : Type} [DecidableEq κ] (k : κ) : List (κ × α) → Option α
  | [] => none
  | (k', v) :: rest => if k = k' then some v else cacheFind k rest

/-- The chunk-count computation shared by the three raw-frame adapters:
`total_frames//fr_chunk_no`, replaced by 1 when the quotient is 0. -/
def clampChunks (total_frames fr_chunk_no : Int) : Int :=
  let t := total_frames / fr_chunk_no
  if t = 0 then 1 else t

/-- Embedding of the module-level helper `computeFramesToRead(read_nframes,
total_frames, fr_chunk_no, current_frame_chunk)`.  `none` stands for Python's
`None` default. -/
def computeFramesToRead (read_nframes : Option Int)
    (total_frames fr_chunk_no current_frame_chunk : Int) : Int :=
  if read_nframes = some (-1) then total_frames
  else
    let frames_to_read := match read_nframes with
      | none => fr_chunk_no
      | some n => n
    if (current_frame_chunk + 1) * fr_chunk_no > total_frames then
      total_frames - current_frame_chunk * fr_chunk_no
    else frames_to_read

/-- Embedding of the FFMimickInterface structure (the Aggregate handed back by the
on-the-fly aggregating adapters).  All pixel data is already cast to the integer
depth by the time it is stored here. -/
structure FFMimickInterface where
  maxpixel : Frame
  avepixel : Frame
  nrows : Int
  ncols : Int
  nframes : Int
deriving Repr, DecidableEq

/-- State of InputTypeVideo.  The opened container (`self.cap`) is modelled by the
list of decoded grayscale frames `source`; `cap.set(1, p)` followed by sequential
reads is modelled by `source.drop p`.  The fps / timestamp / path fields are
omitted: no claim mentions them and no modelled operation reads them. -/
structure VideoState where
  source : List Frame
  nrows : Int
  ncols : Int
  total_frames : Int
  fr_chunk_no : Int
  total_fr_chunks : Int
  current_frame_chunk : Int
  current_frame : Int
  current_fr_chunk_size : Int
  cache : List (Int × FFMimickInterface)
deriving Repr, DecidableEq

/-- InputTypeVideo.__init__: probes total frame count and geometry, fixes the
nominal chunk length 256, and clamps the chunk count to at least 1.  (The real
code reads the probe values out of cv2; `total_frames` is the container's frame
count, i.e. the length of the decoded frame sequence.) -/
def initVideoState (source : List Frame) (nrows ncols : Int) : VideoState :=
  { source := source
    nrows := nrows
    ncols := ncols
    total_frames := (source.length : Int)
    fr_chunk_no := 256
    total_fr_chunks := clampChunks (source.length : Int) 256
    current_frame_chunk := 0
    current_frame := 0
    current_fr_chunk_size := 256
    cache := [] }

/-- InputTypeVideo.nextChunk. -/
def videoNextChunk (s : VideoState) : VideoState :=
  let c := (s.current_frame_chunk + 1) % s.total_fr_chunks
  { s with current_frame_chunk := c, current_frame := c * s.fr_chunk_no }

/-- InputTypeVideo.prevChunk. -/
def videoPrevChunk (s : VideoState) : VideoState :=
  let c := (s.current_frame_chunk - 1) % s.total_fr_chunks
  { s with current_frame_chunk := c, current_frame := c * s.fr_chunk_no }

/-- InputTypeVideo.nextFrame. -/
def videoNextFrame (s : VideoState) : VideoState :=
  { s with current_frame := (s.current_frame + 1) % s.total_frames }

/-- InputTypeVideo.prevFrame. -/
def videoPrevFrame (s : VideoState) : VideoState :=
  { s with current_frame := (s.current_frame - 1) % s.total_frames }

/-- The `for i in range(frames_to_read)` aggregation loop of
InputTypeVideo.loadChunk.  The fuel argument counts the remaining range, the
list argument holds the frames still deliverable by `cap.read()` (an empty list
means `cap.read()` returns the end-of-stream `None` and the loop breaks).
Returns the maxpixel, the float avepixel accumulator, and the number of loop
iterations that were entered: the Python code stores `i + 1` afterwards, which
equals that entered count (and raises NameError when it is zero, since `i` was
then never bound). -/
def videoAggLoop (F : ℚ) : Nat → List Frame → Frame → List ℚ → Nat →
    Frame × List ℚ × Nat
  | 0, _, mp, ap, entered => (mp, ap, entered)
  | _+1, [], mp, ap, entered => (mp, ap, entered + 1)
  | n+1, f :: rest, mp, ap, entered =>
      videoAggLoop F n rest (maxMerge mp f) (aveAcc F ap f) (entered + 1)

/-- The cache key used by InputTypeVideo.loadChunk: -1 for a whole-source request,
otherwise the current chunk index. -/
def videoKey (s : VideoState) (read_nframes : Option Int) : Int :=
  if read_nframes = some (-1) then -1 else s.current_frame_chunk

/-- The first frame position InputTypeVideo.loadChunk seeks to: 0 for a
whole-source request, otherwise the current chunk's first frame. -/
def videoStart (s : VideoState) (read_nframes : Option Int) : Int :=
  if read_nframes = some (-1) then 0 else s.current_frame_chunk * s.fr_chunk_no

/-- Embedding of InputTypeVideo.loadChunk.  A cache hit returns the cached
aggregate with the state untouched; a miss seeks, aggregates up to
`frames_to_read` frames (uint8 depth), records `i + 1` as the chunk size, and
rebuilds the cache as the single new entry.  An empty loop range leaves Python's
`i` unbound and raises NameError; the model returns that as an error. -/
def videoLoadChunk (s : VideoState) (read_nframes : Option Int) :
    Except String (FFMimickInterface × VideoState) :=
  match cacheFind (videoKey s read_nframes) s.cache with
  | some v => .ok (v, s)
  | none =>
    let frames_to_read := computeFramesToRead read_nframes s.total_frames
        s.fr_chunk_no s.current_frame_chunk
    let npix := (s.nrows * s.ncols).toNat
    let window := s.source.drop (videoStart s read_nframes).toNat
    let r := videoAggLoop (frames_to_read : ℚ) frames_to_read.toNat window
        (List.replicate npix 0) (List.replicate npix 0) 0
    if r.2.2 = 0 then .error ("NameError: name i is not defined")
    else
      let avepixel := r.2.1.map (castDepth 8)
      let ff : FFMimickInterface :=
        ⟨r.1, avepixel, s.nrows, s.ncols, s.total_frames⟩
      .ok (ff, { s with
        current_fr_chunk_size := (r.2.2 : Int)
        cache := [(videoKey s read_nframes, ff)] })

/-- Modelled from the spec: an archive (FF) file stores a pre-aggregated
maxpixel/avepixel pair for a fixed run of frames, plus that run's frame count
(the structure `readFF` returns; RMS.Formats.FFfile is not part of the given
sources). -/
structure FFStructFile where
  maxpixel : Frame
  avepixel : Frame
  nrows : Int
  ncols : Int
  nframes : Int
deriving Repr, DecidableEq

/-- Modelled from the spec: `filenameToDatetime` (RMS.Formats.FFfile, outside the
given sources) parses an FF file base name into the timestamp embedded in it.
File names are modelled as the natural number encoding that timestamp, so the
parse is the encoding itself. -/
def filenameToDatetime (file_name : Nat) : Int := (file_name : Int)

/-- State of InputTypeFF.  File names are modelled as Nats (see
`filenameToDatetime`); `ff` is the currently loaded archive file structure. -/
structure FFState where
  ff_list : List Nat
  current_ff_index : Int
  current_ff_file : Nat
  beginning_datetime : Int
  current_frame : Int
  cache : List (Nat × FFStructFile)
  ff : FFStructFile
deriving Repr, DecidableEq

/-- InputTypeFF.nextChunk: step to the next FF file (wrapping modulo the list
length) and refresh the beginning time from the new file's name.  Note that it
touches neither `current_frame` nor the cache. -/
def ffNextChunk (s : FFState) : FFState :=
  let i := (s.current_ff_index + 1) % (s.ff_list.length : Int)
  let f := s.ff_list.getD i.toNat 0
  { s with
    current_ff_index := i
    current_ff_file := f
    beginning_datetime := filenameToDatetime f }

/-- InputTypeFF.prevChunk. -/
def ffPrevChunk (s : FFState) : FFState :=
  let i := (s.current_ff_index - 1) % (s.ff_list.length : Int)
  let f := s.ff_list.getD i.toNat 0
  { s with
    current_ff_index := i
    current_ff_file := f
    beginning_datetime := filenameToDatetime f }

/-- InputTypeFF.loadChunk.  `disk` models the directory of FF files on disk
(Modelled from the spec: `readFF` decodes the named archive file; the decode
itself is an external collaborator, so the disk contents are passed in
explicitly).  A cache hit returns the cached structure with the state untouched;
a miss loads from disk, resets the current frame number to 0, and rebuilds the
cache with the loaded file as its only entry. -/
def ffLoadChunk (disk : Nat → FFStructFile) (s : FFState) :
    FFStructFile × FFState :=
  match cacheFind s.current_ff_file s.cache with
  | some v => (v, s)
  | none =>
    let f := disk s.current_ff_file
    (f, { s with
      ff := f
      current_frame := 0
      cache := [(s.current_ff_file, f)] })

/-- InputTypeFF.nextFrame: wraps modulo the loaded file's frame count. -/
def ffNextFrame (s : FFState) : FFState :=
  { s with current_frame := (s.current_frame + 1) % s.ff.nframes }

/-- InputTypeFF.prevFrame. -/
def ffPrevFrame (s : FFState) : FFState :=
  { s with current_frame := (s.current_frame - 1) % s.ff.nframes }

/-- State of InputTypeUWOVid.  The .vid stream is modelled as the list of its
decoded frames paired with the per-frame unix timestamps embedded in the stream;
`vid_file.seek(p*seqlen)` followed by sequential reads is modelled by
`source.drop p`.  The fps / vidinfo fields are omitted: no claim mentions them. -/
structure VidState where
  source : List (Frame × ℚ)
  nrows : Int
  ncols : Int
  total_frames : Int
  fr_chunk_no : Int
  total_fr_chunks : Int
  current_frame_chunk : Int
  current_frame : Int
  current_fr_chunk_size : Int
  frame_chunk_unix_times : List ℚ
  cache : List (Int × (FFMimickInterface × List ℚ))
deriving DecidableEq

/-- The value InputTypeUWOVid.loadChunk hands back to its caller.  The normal
paths return the FF-mimicking aggregate structure; the whole-source (-1) cache
hit returns the raw cached two-element list `[ff, times]` instead (Python is
dynamically typed, so both escape the same method). -/
inductive VidRet where
  | ff : FFMimickInterface → VidRet
  | pair : FFMimickInterface → List ℚ → VidRet
deriving DecidableEq

/-- Whether a value returned by the .vid loadChunk is the aggregate structure
itself (rather than the raw cached [aggregate, times] list). -/
def VidRet.isAggregate : VidRet → Bool
  | .ff _ => true
  | .pair _ _ => false

/-- The `for i in range(frames_to_read)` loop of InputTypeUWOVid.loadChunk.
Modelled from the spec for the decode primitive: `readVidFrame` (RMS.Formats.Vid,
outside the given sources) returns the next decoded frame, or the end-of-stream
sentinel None only at the true end of data — here, when the frame list is
exhausted.  The Python loop calls `.astype(np.uint16)` on that return value
BEFORE the `if frame is None` check, so the sentinel raises AttributeError and
the break below it is unreachable; the model returns that as an error.  On the
normal path the loop collects the frame's unix time and folds the maxpixel and
float avepixel accumulators. -/
def vidAggLoop (F : ℚ) : Nat → List (Frame × ℚ) → Frame → List ℚ → List ℚ →
    Nat → Except String (Frame × List ℚ × List ℚ × Nat)
  | 0, _, mp, ap, times, entered => .ok (mp, ap, times, entered)
  | _+1, [], _, _, _, _ =>
      .error ("AttributeError: NoneType object has no attribute astype")
  | n+1, (f, t) :: rest, mp, ap, times, entered =>
      vidAggLoop F n rest (maxMerge mp f) (aveAcc F ap f) (times ++ [t])
        (entered + 1)

/-- The cache key used by InputTypeUWOVid.loadChunk. -/
def vidKey (s : VidState) (read_nframes : Option Int) : Int :=
  if read_nframes = some (-1) then -1 else s.current_frame_chunk

/-- The first frame position InputTypeUWOVid.loadChunk seeks to. -/
def vidStart (s : VidState) (read_nframes : Option Int) : Int :=
  if read_nframes = some (-1) then 0 else s.current_frame_chunk * s.fr_chunk_no

/-- Embedding of InputTypeUWOVid.loadChunk.  A whole-source (-1) cache hit
returns the raw cached [aggregate, times] pair; a chunk cache hit unpacks it,
installs the cached times and returns the aggregate; a miss seeks, aggregates
with uint16 depth, records `i + 1` as the chunk size, and rebuilds the cache as
the single new entry whose value is the [aggregate, times] pair. -/
def vidLoadChunk (s : VidState) (read_nframes : Option Int) :
    Except String (VidRet × VidState) :=
  match cacheFind (vidKey s read_nframes) s.cache with
  | some v =>
    if read_nframes = some (-1) then .ok (.pair v.1 v.2, s)
    else .ok (.ff v.1, { s with frame_chunk_unix_times := v.2 })
  | none =>
    let frames_to_read := computeFramesToRead read_nframes s.total_frames
        s.fr_chunk_no s.current_frame_chunk
    let npix := (s.nrows * s.ncols).toNat
    let window := s.source.drop (vidStart s read_nframes).toNat
    match vidAggLoop (frames_to_read : ℚ) frames_to_read.toNat window
        (List.replicate npix 0) (List.replicate npix 0) [] 0 with
    | .error e => .error e
    | .ok r =>
      if r.2.2.2 = 0 then .error ("NameError: name i is not defined")
      else
        let avepixel := r.2.1.map (castDepth 16)
        let ff : FFMimickInterface :=
          ⟨r.1, avepixel, s.nrows, s.ncols, s.total_frames⟩
        .ok (.ff ff, { s with
          current_fr_chunk_size := (r.2.2.2 : Int)
          frame_chunk_unix_times := r.2.2.1
          cache := [(vidKey s read_nframes, (ff, r.2.2.1))] })

/-- InputTypeUWOVid.__init__ field computations (the construction probes
`total_frames = filesize//seqlen`, i.e. the number of whole frames in the
stream, fixes the nominal chunk length 128 and clamps the chunk count; the
trailing initial `loadChunk()` and the fps estimate only touch the aggregation
fields and are not replayed here). -/
def vidInitFields (source : List (Frame × ℚ)) (nrows ncols : Int) : VidState :=
  { source := source
    nrows := nrows
    ncols := ncols
    total_frames := (source.length : Int)
    fr_chunk_no := 128
    total_fr_chunks := clampChunks (source.length : Int) 128
    current_frame_chunk := 0
    current_frame := 0
    current_fr_chunk_size := 0
    frame_chunk_unix_times := []
    cache := [] }

/-- InputTypeUWOVid.nextChunk. -/
def vidNextChunk (s : VidState) : VidState :=
  let c := (s.current_frame_chunk + 1) % s.total_fr_chunks
  { s with current_frame_chunk := c, current_frame := c * s.fr_chunk_no }

/-- InputTypeUWOVid.prevChunk. -/
def vidPrevChunk (s : VidState) : VidState :=
  let c := (s.current_frame_chunk - 1) % s.total_fr_chunks
  { s with current_frame_chunk := c, current_frame := c * s.fr_chunk_no }

/-- State of InputTypeImages.  The directory of image files is modelled by the
list of decoded grayscale images in sorted order (`loadFrame(fr_no)` decodes
`img_list[fr_no]`).  The fps / timestamp fields are omitted: no claim mentions
them. -/
structure ImagesState where
  img_list : List Frame
  nrows : Int
  ncols : Int
  total_frames : Int
  fr_chunk_no : Int
  total_fr_chunks : Int
  current_frame_chunk : Int
  current_frame : Int
  current_fr_chunk_size : Int
  cache : List (Int × FFMimickInterface)
deriving DecidableEq

/-- The `for i in range(frames_to_read)` loop of InputTypeImages.loadChunk.  The
loop index is tracked explicitly because the code breaks BEFORE loading whenever
`first_img_indx + i >= total_frames - 1` (so the directory's last image is never
aggregated) and afterwards stores `i` — not `i + 1` — as the chunk size.  The
fuel argument counts the remaining range; when it runs out the stored index is
the final loop value `i - 1` (the caller guards the empty range, which would
leave Python's `i` unbound). -/
def imagesAggLoop (imgs : List Frame) (F : ℚ) (total_frames first_img_indx : Int) :
    Nat → Int → Frame → List ℚ → Frame × List ℚ × Int
  | 0, i, mp, ap => (mp, ap, i - 1)
  | n+1, i, mp, ap =>
      if first_img_indx + i ≥ total_frames - 1 then (mp, ap, i)
      else
        let f := imgs.getD (first_img_indx + i).toNat []
        imagesAggLoop imgs F total_frames first_img_indx n (i + 1)
          (maxMerge mp f) (aveAcc F ap f)

/-- The cache key used by InputTypeImages.loadChunk. -/
def imagesKey (s : ImagesState) (read_nframes : Option Int) : Int :=
  if read_nframes = some (-1) then -1 else s.current_frame_chunk

/-- The first image index InputTypeImages.loadChunk starts from. -/
def imagesStart (s : ImagesState) (read_nframes : Option Int) : Int :=
  if read_nframes = some (-1) then 0 else s.current_frame_chunk * s.fr_chunk_no

/-- Embedding of InputTypeImages.loadChunk.  A cache hit returns the cached
aggregate with the state untouched; a miss aggregates from the chunk's first
image index with uint8 depth, stopping one image short of the directory's end,
records the final loop index `i` as the chunk size, and rebuilds the cache as
the single new entry.  An empty loop range leaves Python's `i` unbound and
raises NameError; the model returns that as an error. -/
def imagesLoadChunk (s : ImagesState) (read_nframes : Option Int) :
    Except String (FFMimickInterface × ImagesState) :=
  match cacheFind (imagesKey s read_nframes) s.cache with
  | some v => .ok (v, s)
  | none =>
    let frames_to_read := computeFramesToRead read_nframes s.total_frames
        s.fr_chunk_no s.current_frame_chunk
    if frames_to_read.toNat = 0 then .error ("NameError: name i is not defined")
    else
      let npix := (s.nrows * s.ncols).toNat
      let r := imagesAggLoop s.img_list (frames_to_read : ℚ) s.total_frames
          (imagesStart s read_nframes) frames_to_read.toNat 0
          (List.replicate npix 0) (List.replicate npix 0)
      let avepixel := r.2.1.map (castDepth 8)
      let ff : FFMimickInterface :=
        ⟨r.1, avepixel, s.nrows, s.ncols, s.total_frames⟩
      .ok (ff, { s with
        current_fr_chunk_size := r.2.2
        cache := [(imagesKey s read_nframes, ff)] })

/-- InputTypeImages.__init__: finds the images, probes geometry from the first
one, fixes the nominal chunk length 64, clamps the chunk count, and finishes
with an initial `loadChunk()`.  An empty directory aborts construction. -/
def initImagesState (img_list : List Frame) (nrows ncols : Int) :
    Except String ImagesState :=
  if img_list.isEmpty then
    .error ("Input error: no images in the given directory")
  else
    let st : ImagesState :=
      { img_list := img_list
        nrows := nrows
        ncols := ncols
        total_frames := (img_list.length : Int)
        fr_chunk_no := 64
        total_fr_chunks := clampChunks (img_list.length : Int) 64
        current_frame_chunk := 0
        current_frame := 0
        current_fr_chunk_size := 64
        cache := [] }
    match imagesLoadChunk st none with
    | .ok r => .ok r.2
    | .error e => .error e

/-- InputTypeImages.nextChunk. -/
def imagesNextChunk (s : ImagesState) : ImagesState :=
  let c := (s.current_frame_chunk + 1) % s.total_fr_chunks
  { s with current_frame_chunk := c, current_frame := c * s.fr_chunk_no }

/-- InputTypeImages.prevChunk. -/
def imagesPrevChunk (s : ImagesState) : ImagesState :=
  let c := (s.current_frame_chunk - 1) % s.total_fr_chunks
  { s with current_frame_chunk := c, current_frame := c * s.fr_chunk_no }

/-- InputTypeImages.nextFrame. -/
def imagesNextFrame (s : ImagesState) : ImagesState :=
  { s with current_frame := (s.current_frame + 1) % s.total_frames }

/-- InputTypeImages.prevFrame. -/
def imagesPrevFrame (s : ImagesState) : ImagesState :=
  { s with current_frame := (s.current_frame - 1) % s.total_frames }

lemma emod_step (a T : Int) : (a % T + 1) % T = (a + 1) % T := by
  conv_rhs => rw [← Int.emod_add_ediv a T]
  rw [add_right_comm, Int.add_mul_emod_self_left]

lemma clampChunks_spec (a b : Int) (ha : 0 ≤ a) (hb : 0 < b) :
    clampChunks a b = max (a / b) 1 ∧ 1 ≤ clampChunks a b := by
  have ht : 0 ≤ a / b := Int.ediv_nonneg ha (le_of_lt hb)
  unfold clampChunks
  by_cases h : a / b = 0
  · simp [h]
  · have h1 : 1 ≤ a / b := by omega
    simp only [if_neg h]
    constructor
    · exact (max_eq_left h1).symm
    · exact h1

lemma videoNextFrame_total (s : VideoState) :
    (videoNextFrame s).total_frames = s.total_frames := rfl

lemma videoNextFrame_iterate (N : Nat) (s : VideoState) :
    (videoNextFrame^[N + 1] s).current_frame
      = (s.current_frame + (N + 1)) % s.total_frames ∧
    (videoNextFrame^[N + 1] s).total_frames = s.total_frames := by
  induction N with
  | zero =>
    constructor
    · show (s.current_frame + 1) % s.total_frames
        = (s.current_frame + ((0 : Nat) + 1)) % s.total_frames
      norm_num
    · rfl
  | succ n ih =>
    rw [Function.iterate_succ_apply']
    constructor
    · show ((videoNextFrame^[n + 1] s).current_frame + 1)
          % (videoNextFrame^[n + 1] s).total_frames
        = (s.current_frame + ((n : Int) + 1 + 1)) % s.total_frames
      rw [ih.1, ih.2, emod_step]
      ring_nf
    · show (videoNextFrame^[n + 1] s).total_frames = s.total_frames
      exact ih.2

/-- InputTypeUWOVid.nextFrame. -/
def vidNextFrame (s : VidState) : VidState :=
  { s with current_frame := (s.current_frame + 1) % s.total_frames }

/-- InputTypeUWOVid.prevFrame. -/
def vidPrevFrame (s : VidState) : VidState :=
  { s with current_frame := (s.current_frame - 1) % s.total_frames }

/-- A concrete FF-adapter state used to exercise chunk navigation: two archive
files, currently on the first one, with the frame cursor at frame 5 of the
loaded 256-frame archive. -/
def ffTwoFileState : FFState :=
  { ff_list := [100, 200]
    current_ff_index := 0
    current_ff_file := 100
    beginning_datetime := 100
    current_frame := 5
    cache := []
    ff := ⟨[0], [0], 1, 1, 256⟩ }

/-- A concrete FF-adapter state with 300 archive files, currently on the last. -/
def ffThreeHundredState : FFState :=
  { ff_list := List.range 300
    current_ff_index := 299
    current_ff_file := 299
    beginning_datetime := 299
    current_frame := 0
    cache := []
    ff := ⟨[0], [0], 1, 1, 256⟩ }

/-- C6 counterexample: the claim says every adapter's nextChunk resets
frame_index to chunk_index * chunk_length, but the FF adapter's nextChunk leaves
the frame cursor untouched: from frame 5 of the first of two 256-frame archive
files, nextChunk moves to chunk index 1 yet the frame stays 5, which is neither
the claimed 1 * 256 nor the new chunk's first frame 0. -/
theorem C6_counterexample :
    (ffNextChunk ffTwoFileState).current_ff_index = 1 ∧
    (ffNextChunk ffTwoFileState).current_frame = 5 ∧
    (5 : Int) ≠ (ffNextChunk ffTwoFileState).current_ff_index
      * (ffNextChunk ffTwoFileState).ff.nframes ∧
    (5 : Int) ≠ 0 := by
  refine ⟨rfl, rfl, ?_, ?_⟩ <;> decide

set_option maxRecDepth 4000 in
/-- C6 (amended): for the video, vid and images adapters nextChunk/prevChunk set
chunk_index to (chunk_index ± 1) mod total_chunks and reset frame_index to the
new chunk_index * chunk_length; the FF adapter's nextChunk/prevChunk set the
file index to (index ± 1) mod the file count (so with 300 one-file-per-chunk
archive files, nextChunk from index 299 wraps to 0) and refresh the beginning
timestamp, but leave the frame cursor unchanged (it is reset only by the next
cache-missing loadChunk). -/
theorem C6_chunk_navigation :
    (∀ s : VideoState,
      (videoNextChunk s).current_frame_chunk
        = (s.current_frame_chunk + 1) % s.total_fr_chunks ∧
      (videoNextChunk s).current_frame
        = (videoNextChunk s).current_frame_chunk * s.fr_chunk_no ∧
      (videoPrevChunk s).current_frame_chunk
        = (s.current_frame_chunk - 1) % s.total_fr_chunks ∧
      (videoPrevChunk s).current_frame
        = (videoPrevChunk s).current_frame_chunk * s.fr_chunk_no) ∧
    (∀ s : VidState,
      (vidNextChunk s).current_frame_chunk
        = (s.current_frame_chunk + 1) % s.total_fr_chunks ∧
      (vidNextChunk s).current_frame
        = (vidNextChunk s).current_frame_chunk * s.fr_chunk_no ∧
      (vidPrevChunk s).current_frame_chunk
        = (s.current_frame_chunk - 1) % s.total_fr_chunks ∧
      (vidPrevChunk s).current_frame
        = (vidPrevChunk s).current_frame_chunk * s.fr_chunk_no) ∧
    (∀ s : ImagesState,
      (imagesNextChunk s).current_frame_chunk
        = (s.current_frame_chunk + 1) % s.total_fr_chunks ∧
      (imagesNextChunk s).current_frame
        = (imagesNextChunk s).current_frame_chunk * s.fr_chunk_no ∧
      (imagesPrevChunk s).current_frame_chunk
        = (s.current_frame_chunk - 1) % s.total_fr_chunks ∧
      (imagesPrevChunk s).current_frame
        = (imagesPrevChunk s).current_frame_chunk * s.fr_chunk_no) ∧
    (∀ s : FFState,
      (ffNextChunk s).current_ff_index
        = (s.current_ff_index + 1) % (s.ff_list.length : Int) ∧
      (ffPrevChunk s).current_ff_index
        = (s.current_ff_index - 1) % (s.ff_list.length : Int) ∧
      (ffNextChunk s).current_frame = s.current_frame ∧
      (ffPrevChunk s).current_frame = s.current_frame) ∧
    (ffNextChunk ffThreeHundredState).current_ff_index = 0 := by
  exact ⟨fun s => ⟨rfl, rfl, rfl, rfl⟩, fun s => ⟨rfl, rfl, rfl, rfl⟩,
    fun s => ⟨rfl, rfl, rfl, rfl⟩, fun s => ⟨rfl, rfl, rfl, rfl⟩, by decide⟩

/-- C7: for every adapter, nextFrame/prevFrame set the frame cursor to
(frame ± 1) mod the adapter's total frame count (for the FF adapter that count
is the loaded archive's nframes), leaving the chunk index untouched; and after N
consecutive nextFrame calls from frame 0, the video adapter's frame cursor is
N mod total_frames. -/
theorem C7_frame_navigation :
    (∀ s : VideoState,
      (videoNextFrame s).current_frame = (s.current_frame + 1) % s.total_frames ∧
      (videoPrevFrame s).current_frame = (s.current_frame - 1) % s.total_frames ∧
      (videoNextFrame s).current_frame_chunk = s.current_frame_chunk ∧
      (videoPrevFrame s).current_frame_chunk = s.current_frame_chunk) ∧
    (∀ s : VidState,
      (vidNextFrame s).current_frame = (s.current_frame + 1) % s.total_frames ∧
      (vidPrevFrame s).current_frame = (s.current_frame - 1) % s.total_frames ∧
      (vidNextFrame s).current_frame_chunk = s.current_frame_chunk ∧
      (vidPrevFrame s).current_frame_chunk = s.current_frame_chunk) ∧
    (∀ s : ImagesState,
      (imagesNextFrame s).current_frame = (s.current_frame + 1) % s.total_frames ∧
      (imagesPrevFrame s).current_frame = (s.current_frame - 1) % s.total_frames ∧
      (imagesNextFrame s).current_frame_chunk = s.current_frame_chunk ∧
      (imagesPrevFrame s).current_frame_chunk = s.current_frame_chunk) ∧
    (∀ s : FFState,
      (ffNextFrame s).current_frame = (s.current_frame + 1) % s.ff.nframes ∧
      (ffPrevFrame s).current_frame = (s.current_frame - 1) % s.ff.nframes ∧
      (ffNextFrame s).current_ff_index = s.current_ff_index ∧
      (ffPrevFrame s).current_ff_index = s.current_ff_index) ∧
    (∀ (s : VideoState) (N : Nat), s.current_frame = 0 →
      (videoNextFrame^[N] s).current_frame = (N : Int) % s.total_frames) := by
  refine ⟨fun s => ⟨rfl, rfl, rfl, rfl⟩, fun s => ⟨rfl, rfl, rfl, rfl⟩,
    fun s => ⟨rfl, rfl, rfl, rfl⟩, fun s => ⟨rfl, rfl, rfl, rfl⟩, ?_⟩
  intro s N h0
  cases N with
  | zero =>
    show s.current_frame = ((0 : Nat) : Int) % s.total_frames
    rw [h0]
    norm_num
  | succ n =>
    have h := (videoNextFrame_iterate n s).1
    rw [h0, zero_add] at h
    rw [h]
    norm_num

/-- A concrete video-adapter state used as the C7 witness: three frames, cursor
at frame 0. -/
def videoThreeFrameState : VideoState :=
  { source := [[0], [0], [0]]
    nrows := 1
    ncols := 1
    total_frames := 3
    fr_chunk_no := 256
    total_fr_chunks := 1
    current_frame_chunk := 0
    current_frame := 0
    current_fr_chunk_size := 256
    cache := [] }

/-- C7 witness: five nextFrame calls from frame 0 of a 3-frame video land on
frame 5 mod 3. -/
theorem C7_witness :
    videoThreeFrameState.current_frame = 0 ∧
    (videoNextFrame^[5] videoThreeFrameState).current_frame
      = ((5 : Nat) : Int) % videoThreeFrameState.total_frames :=
  ⟨rfl, C7_frame_navigation.2.2.2.2 videoThreeFrameState 5 rfl⟩

lemma imagesLoadChunk_preserves_chunks (s : ImagesState) (read : Option Int)
    (r : FFMimickInterface × ImagesState)
    (h : imagesLoadChunk s read = .ok r) :
    r.2.total_fr_chunks = s.total_fr_chunks := by
  unfold imagesLoadChunk at h
  cases hc : cacheFind (imagesKey s read) s.cache with
  | some v =>
    rw [hc] at h
    simp only [Except.ok.injEq] at h
    rw [← h]
  | none =>
    rw [hc] at h
    simp only [] at h
    split at h
    · exact absurd h (by simp)
    · simp only [Except.ok.injEq] at h
      rw [← h]

/-- C9: the three raw-frame adapters compute total_chunks at construction as
total_frames // chunk_length clamped to at least 1 (chunk lengths 256, 128 and
64 respectively), so total_chunks is at least 1 even when the source is shorter
than one nominal chunk and the chunk-navigation modulo never divides by zero. -/
theorem C9_total_chunks_clamped :
    (∀ (source : List Frame) (nrows ncols : Int),
      (initVideoState source nrows ncols).total_fr_chunks
        = max ((source.length : Int) / 256) 1 ∧
      1 ≤ (initVideoState source nrows ncols).total_fr_chunks) ∧
    (∀ (source : List (Frame × ℚ)) (nrows ncols : Int),
      (vidInitFields source nrows ncols).total_fr_chunks
        = max ((source.length : Int) / 128) 1 ∧
      1 ≤ (vidInitFields source nrows ncols).total_fr_chunks) ∧
    (∀ (img_list : List Frame) (nrows ncols : Int) (st : ImagesState),
      initImagesState img_list nrows ncols = .ok st →
      st.total_fr_chunks = max ((img_list.length : Int) / 64) 1 ∧
      1 ≤ st.total_fr_chunks) := by
  refine ⟨?_, ?_, ?_⟩
  · intro source nrows ncols
    exact clampChunks_spec _ 256 (Int.natCast_nonneg _) (by norm_num)
  · intro source nrows ncols
    exact clampChunks_spec _ 128 (Int.natCast_nonneg _) (by norm_num)
  · intro img_list nrows ncols st h
    unfold initImagesState at h
    split at h
    · exact absurd h (by simp)
    · cases hl : imagesLoadChunk
          { img_list := img_list, nrows := nrows, ncols := ncols,
            total_frames := (img_list.length : Int), fr_chunk_no := 64,
            total_fr_chunks := clampChunks (img_list.length : Int) 64,
            current_frame_chunk := 0, current_frame := 0,
            current_fr_chunk_size := 64, cache := [] } none with
      | ok r =>
        simp only [hl, Except.ok.injEq] at h
        have hp := imagesLoadChunk_preserves_chunks _ _ _ hl
        rw [← h, hp]
        exact clampChunks_spec _ 64 (Int.natCast_nonneg _) (by norm_num)
      | error e =>
        simp only [hl] at h
        exact absurd h (by simp)

/-- The images-adapter state after constructing on a directory holding a single
all-zero one-pixel image. -/
def imagesOneFrameState : ImagesState :=
  { img_list := [[0]]
    nrows := 1
    ncols := 1
    total_frames := 1
    fr_chunk_no := 64
    total_fr_chunks := 1
    current_frame_chunk := 0
    current_frame := 0
    current_fr_chunk_size := 0
    cache := [(0, ⟨[0], [0], 1, 1, 1⟩)] }

/-- C9 witness: constructing the images adapter on a single-image directory
succeeds and its chunk count is clamped to 1. -/
theorem C9_witness :
    initImagesState [[0]] 1 1 = .ok imagesOneFrameState ∧
    (imagesOneFrameState.total_fr_chunks
        = max ((([[0]] : List Frame).length : Int) / 64) 1 ∧
      1 ≤ imagesOneFrameState.total_fr_chunks) :=
  ⟨rfl, C9_total_chunks_clamped.2.2 [[0]] 1 1 imagesOneFrameState rfl⟩

lemma videoAggLoop_run_out (F : ℚ) (window : List Frame) :
    ∀ (n : Nat) (mp : Frame) (ap : List ℚ) (e : Nat), window.length < n →
    videoAggLoop F n window mp ap e
      = (window.foldl maxMerge mp, window.foldl (aveAcc F) ap,
         e + window.length + 1) := by
  induction window with
  | nil =>
    intro n mp ap e hn
    cases n with
    | zero => exact absurd hn (by simp)
    | succ m => simp [videoAggLoop]
  | cons f rest ih =>
    intro n mp ap e hn
    cases n with
    | zero => exact absurd hn (by omega)
    | succ m =>
      have hm : rest.length < m := by
        simpa using Nat.lt_of_succ_lt_succ hn
      show videoAggLoop F m rest (maxMerge mp f) (aveAcc F ap f) (e + 1)
        = ((f :: rest).foldl maxMerge mp, (f :: rest).foldl (aveAcc F) ap,
           e + (f :: rest).length + 1)
      rw [ih m (maxMerge mp f) (aveAcc F ap f) (e + 1) hm]
      simp only [List.foldl_cons, List.length_cons]
      congr 2
      omega

lemma videoAggLoop_full (F : ℚ) (n : Nat) :
    ∀ (window : List Frame) (mp : Frame) (ap : List ℚ) (e : Nat),
    n ≤ window.length →
    videoAggLoop F n window mp ap e
      = ((window.take n).foldl maxMerge mp, (window.take n).foldl (aveAcc F) ap,
         e + n) := by
  induction n with
  | zero =>
    intro window mp ap e hn
    simp [videoAggLoop]
  | succ m ih =>
    intro window mp ap e hn
    cases window with
    | nil => exact absurd hn (by simp)
    | cons f rest =>
      show videoAggLoop F m rest (maxMerge mp f) (aveAcc F ap f) (e + 1)
        = (((f :: rest).take (m + 1)).foldl maxMerge mp,
           ((f :: rest).take (m + 1)).foldl (aveAcc F) ap, e + (m + 1))
      have hm : m ≤ rest.length := by simpa using Nat.succ_le_succ_iff.mp hn
      rw [ih rest (maxMerge mp f) (aveAcc F ap f) (e + 1) hm]
      simp only [List.take_succ_cons, List.foldl_cons]
      congr 2
      omega

/-- C1: whenever a video-adapter aggregation window is truncated by
end-of-source (fewer frames delivered than frames_to_read), the returned
avepixel is the float accumulation over exactly the delivered frames of
frame / frames_to_read — the originally requested count, not the processed
count — cast to uint8 by truncation only after the loop. -/
theorem C1_truncated_avepixel_divisor (s : VideoState) (read : Option Int)
    (hmiss : cacheFind (videoKey s read) s.cache = none)
    (htrunc : ((s.source.drop (videoStart s read).toNat).length : Int)
      < computeFramesToRead read s.total_frames s.fr_chunk_no
          s.current_frame_chunk) :
    (videoLoadChunk s read).toOption.map (fun p => p.1.avepixel)
      = some (((s.source.drop (videoStart s read).toNat).foldl
          (aveAcc (computeFramesToRead read s.total_frames s.fr_chunk_no
            s.current_frame_chunk : ℚ))
          (List.replicate (s.nrows * s.ncols).toNat 0)).map (castDepth 8)) := by
  have hlen : (s.source.drop (videoStart s read).toNat).length
      < (computeFramesToRead read s.total_frames s.fr_chunk_no
          s.current_frame_chunk).toNat := by
    omega
  simp only [videoLoadChunk, hmiss]
  rw [videoAggLoop_run_out _ _ _ _ _ _ hlen]
  simp
  exact ⟨_, ⟨_, rfl⟩, rfl⟩

/-- A concrete video-adapter state for the C1 witness: a 256-frame all-zero
video (one chunk), on chunk 0 with an empty cache; requesting 300 frames
truncates after 256. -/
def videoTruncState : VideoState :=
  { source := List.replicate 256 [0]
    nrows := 1
    ncols := 1
    total_frames := 256
    fr_chunk_no := 256
    total_fr_chunks := 1
    current_frame_chunk := 0
    current_frame := 0
    current_fr_chunk_size := 256
    cache := [] }

set_option maxRecDepth 8000 in
/-- C1 witness: the truncation hypotheses hold on a concrete 256-frame video
with 300 frames requested, and the theorem yields its avepixel formula there. -/
theorem C1_witness :
    cacheFind (videoKey videoTruncState (some 300)) videoTruncState.cache
      = none ∧
    ((videoTruncState.source.drop
        (videoStart videoTruncState (some 300)).toNat).length : Int)
      < computeFramesToRead (some 300) videoTruncState.total_frames
          videoTruncState.fr_chunk_no videoTruncState.current_frame_chunk ∧
    (videoLoadChunk videoTruncState (some 300)).toOption.map
        (fun p => p.1.avepixel)
      = some (((videoTruncState.source.drop
          (videoStart videoTruncState (some 300)).toNat).foldl
          (aveAcc (computeFramesToRead (some 300) videoTruncState.total_frames
            videoTruncState.fr_chunk_no videoTruncState.current_frame_chunk : ℚ))
          (List.replicate
            (videoTruncState.nrows * videoTruncState.ncols).toNat 0)).map
          (castDepth 8)) :=
  ⟨by decide, by decide,
    C1_truncated_avepixel_divisor videoTruncState (some 300) (by decide)
      (by decide)⟩

/-- The request semantics computeFramesToRead actually implements (the amended
C2): -1 means the whole source; otherwise the base count is the nominal chunk
length (when unset) or the caller's N, and then, precisely when the current
chunk extends past end-of-source ((chunk + 1) * chunk_length > total_frames),
the base count is replaced — regardless of its value — by the remaining length
from the current chunk offset. -/
def framesToReadSpec (read_nframes : Option Int)
    (total_frames fr_chunk_no current_frame_chunk : Int) : Int :=
  match read_nframes with
  | none =>
      if (current_frame_chunk + 1) * fr_chunk_no > total_frames then
        total_frames - current_frame_chunk * fr_chunk_no
      else fr_chunk_no
  | some n =>
      if n = -1 then total_frames
      else if (current_frame_chunk + 1) * fr_chunk_no > total_frames then
        total_frames - current_frame_chunk * fr_chunk_no
      else n

/-- The 600-frame video-adapter state on chunk 1 (as produced by construction
followed by nextChunk; see C2_counterexample). -/
def video600 : VideoState :=
  { source := List.replicate 600 [0]
    nrows := 1
    ncols := 1
    total_frames := 600
    fr_chunk_no := 256
    total_fr_chunks := 2
    current_frame_chunk := 1
    current_frame := 256
    current_fr_chunk_size := 256
    cache := [] }

set_option maxRecDepth 20000 in
/-- C2 counterexample: on a 600-frame video source with nominal chunk length
256, total_chunks is 2 as claimed, but requesting the default chunk size on
chunk 1 yields actual_count 256, not the claimed 344: chunk 1 still has 344
frames ahead of it, yet frames_to_read stays 256 because the cap fires only
when (chunk + 1) * chunk_length exceeds the total. -/
theorem C2_counterexample :
    videoNextChunk (initVideoState (List.replicate 600 [0]) 1 1) = video600 ∧
    (initVideoState (List.replicate 600 [0]) 1 1).total_fr_chunks = 2 ∧
    (videoLoadChunk video600 none).toOption.map
      (fun p => p.2.current_fr_chunk_size) = some 256 ∧
    (256 : Int) ≠ 344 := by
  refine ⟨by decide, by decide, by decide, by decide⟩

set_option maxRecDepth 20000 in
/-- C2 (amended): loadChunkAggregate reads frames_to_read frames computed as
follows — unset means the nominal chunk length and a positive N means N, except
that when the current chunk extends past end-of-source the count is replaced
(regardless of the request) by the remaining length from the chunk offset; -1
means the whole source.  On a 600-frame video source with nominal chunk length
256, total_chunks is 2, requesting the default chunk size on chunk 1 yields
actual_count 256, and requesting -1 yields actual_count 600. -/
theorem C2_frames_to_read_semantics :
    (∀ (read : Option Int) (total chunkno chunk : Int),
      computeFramesToRead read total chunkno chunk
        = framesToReadSpec read total chunkno chunk) ∧
    (initVideoState (List.replicate 600 [0]) 1 1).total_fr_chunks = 2 ∧
    (videoLoadChunk video600 none).toOption.map
      (fun p => p.2.current_fr_chunk_size) = some 256 ∧
    (videoLoadChunk video600 (some (-1))).toOption.map
      (fun p => p.2.current_fr_chunk_size) = some 600 := by
  refine ⟨?_, by decide, by decide, by decide⟩
  intro read total chunkno chunk
  cases read with
  | none => simp [computeFramesToRead, framesToReadSpec]
  | some n =>
    by_cases hn : n = -1
    · subst hn
      simp [computeFramesToRead, framesToReadSpec]
    · simp [computeFramesToRead, framesToReadSpec, hn]

lemma castDepth_zero (d : Nat) : castDepth d 0 = 0 := by
  have h : truncToInt 0 = 0 := by
    unfold truncToInt
    rw [if_neg (lt_irrefl 0), Rat.floor_def']
    simp
  unfold castDepth
  rw [h, Int.zero_emod]
  rfl

lemma videoLoadChunk_hit (s : VideoState) (read : Option Int)
    (v : FFMimickInterface)
    (h : cacheFind (videoKey s read) s.cache = some v) :
    videoLoadChunk s read = .ok (v, s) := by
  simp only [videoLoadChunk, h]

lemma videoLoadChunk_miss_state (s : VideoState) (read : Option Int)
    (r : FFMimickInterface × VideoState)
    (hc : cacheFind (videoKey s read) s.cache = none)
    (h : videoLoadChunk s read = .ok r) :
    r.2.cache = [(videoKey s read, r.1)] ∧
    r.2.current_frame_chunk = s.current_frame_chunk := by
  simp only [videoLoadChunk, hc] at h
  split at h
  · exact absurd h (by simp)
  · simp only [Except.ok.injEq] at h
    rw [← h]
    exact ⟨rfl, rfl⟩

lemma videoLoadChunk_consecutive (s : VideoState) (read : Option Int)
    (r : FFMimickInterface × VideoState)
    (h : videoLoadChunk s read = .ok r) :
    videoLoadChunk r.2 read = .ok r := by
  cases hc : cacheFind (videoKey s read) s.cache with
  | some v =>
    have hv := videoLoadChunk_hit s read v hc
    rw [h] at hv
    simp only [Except.ok.injEq] at hv
    subst hv
    exact videoLoadChunk_hit s read v hc
  | none =>
    obtain ⟨hcache, hchunk⟩ := videoLoadChunk_miss_state s read r hc h
    have hfind : cacheFind (videoKey r.2 read) r.2.cache = some r.1 := by
      have hkey : videoKey r.2 read = videoKey s read := by
        unfold videoKey
        rw [hchunk]
      rw [hkey, hcache]
      simp [cacheFind]
    rw [videoLoadChunk_hit r.2 read r.1 hfind]

lemma ffLoadChunk_hit (disk : Nat → FFStructFile) (s : FFState)
    (v : FFStructFile) (h : cacheFind s.current_ff_file s.cache = some v) :
    ffLoadChunk disk s = (v, s) := by
  simp only [ffLoadChunk, h]

lemma ffLoadChunk_miss (disk : Nat → FFStructFile) (s : FFState)
    (h : cacheFind s.current_ff_file s.cache = none) :
    ffLoadChunk disk s = (disk s.current_ff_file,
      { s with
        ff := disk s.current_ff_file
        current_frame := 0
        cache := [(s.current_ff_file, disk s.current_ff_file)] }) := by
  simp only [ffLoadChunk, h]

lemma ffLoadChunk_consecutive (disk : Nat → FFStructFile) (s : FFState) :
    ffLoadChunk disk (ffLoadChunk disk s).2 = ffLoadChunk disk s := by
  cases hc : cacheFind s.current_ff_file s.cache with
  | some v =>
    rw [ffLoadChunk_hit disk s v hc]
    exact ffLoadChunk_hit disk s v hc
  | none =>
    rw [ffLoadChunk_miss disk s hc]
    exact ffLoadChunk_hit disk _ _ (by simp [cacheFind])

lemma imagesLoadChunk_hit (s : ImagesState) (read : Option Int)
    (v : FFMimickInterface)
    (h : cacheFind (imagesKey s read) s.cache = some v) :
    imagesLoadChunk s read = .ok (v, s) := by
  simp only [imagesLoadChunk, h]

lemma imagesLoadChunk_miss_state (s : ImagesState) (read : Option Int)
    (r : FFMimickInterface × ImagesState)
    (hc : cacheFind (imagesKey s read) s.cache = none)
    (h : imagesLoadChunk s read = .ok r) :
    r.2.cache = [(imagesKey s read, r.1)] ∧
    r.2.current_frame_chunk = s.current_frame_chunk := by
  simp only [imagesLoadChunk, hc] at h
  split at h
  · exact absurd h (by simp)
  · simp only [Except.ok.injEq] at h
    rw [← h]
    exact ⟨rfl, rfl⟩

lemma imagesLoadChunk_consecutive (s : ImagesState) (read : Option Int)
    (r : FFMimickInterface × ImagesState)
    (h : imagesLoadChunk s read = .ok r) :
    imagesLoadChunk r.2 read = .ok r := by
  cases hc : cacheFind (imagesKey s read) s.cache with
  | some v =>
    have hv := imagesLoadChunk_hit s read v hc
    rw [h] at hv
    simp only [Except.ok.injEq] at hv
    subst hv
    exact imagesLoadChunk_hit s read v hc
  | none =>
    obtain ⟨hcache, hchunk⟩ := imagesLoadChunk_miss_state s read r hc h
    have hfind : cacheFind (imagesKey r.2 read) r.2.cache = some r.1 := by
      have hkey : imagesKey r.2 read = imagesKey s read := by
        unfold imagesKey
        rw [hchunk]
      rw [hkey, hcache]
      simp [cacheFind]
    rw [imagesLoadChunk_hit r.2 read r.1 hfind]

lemma vidLoadChunk_hit_chunk (s : VidState) (read : Option Int)
    (v : FFMimickInterface × List ℚ) (hne : read ≠ some (-1))
    (h : cacheFind (vidKey s read) s.cache = some v) :
    vidLoadChunk s read
      = .ok (.ff v.1, { s with frame_chunk_unix_times := v.2 }) := by
  simp only [vidLoadChunk, h, if_neg hne]

lemma vidLoadChunk_hit_whole (s : VidState) (v : FFMimickInterface × List ℚ)
    (h : cacheFind (vidKey s (some (-1))) s.cache = some v) :
    vidLoadChunk s (some (-1)) = .ok (.pair v.1 v.2, s) := by
  simp only [vidLoadChunk, h]
  rfl

lemma vidLoadChunk_miss_state (s : VidState) (read : Option Int)
    (r : VidRet × VidState)
    (hc : cacheFind (vidKey s read) s.cache = none)
    (h : vidLoadChunk s read = .ok r) :
    ∃ ff ts, r.1 = VidRet.ff ff ∧
      r.2.cache = [(vidKey s read, (ff, ts))] ∧
      r.2.frame_chunk_unix_times = ts ∧
      r.2.current_frame_chunk = s.current_frame_chunk := by
  simp only [vidLoadChunk, hc] at h
  split at h
  · exact absurd h (by simp)
  · split at h
    · exact absurd h (by simp)
    · simp only [Except.ok.injEq] at h
      rw [← h]
      exact ⟨_, _, rfl, rfl, rfl, rfl⟩

lemma vidLoadChunk_consecutive (s : VidState) (read : Option Int)
    (r : VidRet × VidState) (hne : read ≠ some (-1))
    (h : vidLoadChunk s read = .ok r) :
    vidLoadChunk r.2 read = .ok r := by
  cases hc : cacheFind (vidKey s read) s.cache with
  | some v =>
    have hv := vidLoadChunk_hit_chunk s read v hne hc
    rw [h] at hv
    simp only [Except.ok.injEq] at hv
    subst hv
    exact vidLoadChunk_hit_chunk _ read v hne hc
  | none =>
    obtain ⟨ff, ts, h1, h2, h3, h4⟩ := vidLoadChunk_miss_state s read r hc h
    have hfind : cacheFind (vidKey r.2 read) r.2.cache = some (ff, ts) := by
      have hkey : vidKey r.2 read = vidKey s read := by
        unfold vidKey
        rw [h4]
      rw [hkey, h2]
      simp [cacheFind]
    rw [vidLoadChunk_hit_chunk r.2 read (ff, ts) hne hfind]
    rw [show ({ r.2 with frame_chunk_unix_times := ts } : VidState) = r.2 from
      by rw [← h3]]
    rw [← h1]

/-- C5 (amended): for the FF, video and images adapters loadChunk behaves
exactly as claimed — a call whose key (current chunk index / file, or the -1
sentinel) is the cached one returns the cached Aggregate unchanged without
recomputation, any other call computes and stores the result as the sole cache
entry, and two consecutive calls with no navigation in between return the
identical Aggregate with one computation.  The .vid adapter conforms on its
chunk-key hit, miss and consecutive-call paths, but its whole-source (-1)
cache hit hands back the raw cached [aggregate, times] pair (still without
recomputation and with the state unchanged; see the counterexample). -/
theorem C5_cache_reuse :
    (∀ (s : VideoState) (read : Option Int) (v : FFMimickInterface),
      cacheFind (videoKey s read) s.cache = some v →
      videoLoadChunk s read = .ok (v, s)) ∧
    (∀ (s : VideoState) (read : Option Int)
        (r : FFMimickInterface × VideoState),
      cacheFind (videoKey s read) s.cache = none →
      videoLoadChunk s read = .ok r →
      r.2.cache = [(videoKey s read, r.1)]) ∧
    (∀ (s : VideoState) (read : Option Int)
        (r : FFMimickInterface × VideoState),
      videoLoadChunk s read = .ok r →
      videoLoadChunk r.2 read = .ok r) ∧
    (∀ (disk : Nat → FFStructFile) (s : FFState) (v : FFStructFile),
      cacheFind s.current_ff_file s.cache = some v →
      ffLoadChunk disk s = (v, s)) ∧
    (∀ (disk : Nat → FFStructFile) (s : FFState),
      cacheFind s.current_ff_file s.cache = none →
      (ffLoadChunk disk s).2.cache
        = [(s.current_ff_file, (ffLoadChunk disk s).1)]) ∧
    (∀ (disk : Nat → FFStructFile) (s : FFState),
      ffLoadChunk disk (ffLoadChunk disk s).2 = ffLoadChunk disk s) ∧
    (∀ (s : ImagesState) (read : Option Int) (v : FFMimickInterface),
      cacheFind (imagesKey s read) s.cache = some v →
      imagesLoadChunk s read = .ok (v, s)) ∧
    (∀ (s : ImagesState) (read : Option Int)
        (r : FFMimickInterface × ImagesState),
      cacheFind (imagesKey s read) s.cache = none →
      imagesLoadChunk s read = .ok r →
      r.2.cache = [(imagesKey s read, r.1)]) ∧
    (∀ (s : ImagesState) (read : Option Int)
        (r : FFMimickInterface × ImagesState),
      imagesLoadChunk s read = .ok r →
      imagesLoadChunk r.2 read = .ok r) ∧
    (∀ (s : VidState) (read : Option Int) (v : FFMimickInterface × List ℚ),
      read ≠ some (-1) →
      cacheFind (vidKey s read) s.cache = some v →
      vidLoadChunk s read
        = .ok (.ff v.1, { s with frame_chunk_unix_times := v.2 })) ∧
    (∀ (s : VidState) (v : FFMimickInterface × List ℚ),
      cacheFind (vidKey s (some (-1))) s.cache = some v →
      vidLoadChunk s (some (-1)) = .ok (.pair v.1 v.2, s)) ∧
    (∀ (s : VidState) (read : Option Int) (r : VidRet × VidState),
      cacheFind (vidKey s read) s.cache = none →
      vidLoadChunk s read = .ok r →
      ∃ ff ts, r.1 = VidRet.ff ff ∧
        r.2.cache = [(vidKey s read, (ff, ts))]) ∧
    (∀ (s : VidState) (read : Option Int) (r : VidRet × VidState),
      read ≠ some (-1) →
      vidLoadChunk s read = .ok r →
      vidLoadChunk r.2 read = .ok r) := by
  refine ⟨videoLoadChunk_hit, ?_, videoLoadChunk_consecutive,
    ffLoadChunk_hit, ?_, ffLoadChunk_consecutive,
    imagesLoadChunk_hit, ?_, imagesLoadChunk_consecutive,
    fun s read v hne h => vidLoadChunk_hit_chunk s read v hne h,
    vidLoadChunk_hit_whole, ?_,
    fun s read r hne h => vidLoadChunk_consecutive s read r hne h⟩
  · intro s read r hc h
    exact (videoLoadChunk_miss_state s read r hc h).1
  · intro disk s h
    rw [ffLoadChunk_miss disk s h]
  · intro s read r hc h
    exact (imagesLoadChunk_miss_state s read r hc h).1
  · intro s read r hc h
    obtain ⟨ff, ts, h1, h2, _, _⟩ := vidLoadChunk_miss_state s read r hc h
    exact ⟨ff, ts, h1, h2⟩

/-- The all-zero one-pixel single-frame aggregate. -/
def ffZeroAgg : FFMimickInterface := ⟨[0], [0], 1, 1, 1⟩

/-- A one-frame all-zero video-adapter state with an empty cache. -/
def videoOneFrameState : VideoState :=
  { source := [[0]]
    nrows := 1
    ncols := 1
    total_frames := 1
    fr_chunk_no := 256
    total_fr_chunks := 1
    current_frame_chunk := 0
    current_frame := 0
    current_fr_chunk_size := 256
    cache := [] }

/-- The same state after its first loadChunk computed and cached the chunk-0
aggregate. -/
def videoOneFrameLoaded : VideoState :=
  { videoOneFrameState with current_fr_chunk_size := 1, cache := [(0, ffZeroAgg)] }

/-- A one-frame .vid-adapter state whose whole-source aggregate is cached under
the -1 sentinel. -/
def vidCachedState : VidState :=
  { source := [([0], 0)]
    nrows := 1
    ncols := 1
    total_frames := 1
    fr_chunk_no := 128
    total_fr_chunks := 1
    current_frame_chunk := 0
    current_frame := 0
    current_fr_chunk_size := 1
    frame_chunk_unix_times := [0]
    cache := [(-1, (ffZeroAgg, [0]))] }

/-- C5 counterexample: the claim says every adapter's cache hit returns the
cached Aggregate unchanged, but the .vid adapter's whole-source (-1) cache hit
returns the raw cached [aggregate, times] two-element list — not the Aggregate
structure — because `return self.cache[-1]` skips the unpacking the chunk-hit
branch performs. -/
theorem C5_counterexample :
    vidLoadChunk vidCachedState (some (-1))
      = .ok (.pair ffZeroAgg [0], vidCachedState) ∧
    VidRet.isAggregate (VidRet.pair ffZeroAgg [0]) = false :=
  ⟨rfl, rfl⟩

/-- The images-adapter state just before construction's initial loadChunk on a
single all-zero one-pixel image. -/
def imagesOnePreState : ImagesState :=
  { img_list := [[0]]
    nrows := 1
    ncols := 1
    total_frames := 1
    fr_chunk_no := 64
    total_fr_chunks := 1
    current_frame_chunk := 0
    current_frame := 0
    current_fr_chunk_size := 64
    cache := [] }

/-- A one-frame all-zero .vid-adapter state with an empty cache. -/
def vidOnePreState : VidState :=
  { source := [([0], 0)]
    nrows := 1
    ncols := 1
    total_frames := 1
    fr_chunk_no := 128
    total_fr_chunks := 1
    current_frame_chunk := 0
    current_frame := 0
    current_fr_chunk_size := 0
    frame_chunk_unix_times := []
    cache := [] }

/-- The same .vid state after its first loadChunk cached the chunk-0 aggregate. -/
def vidOneLoaded : VidState :=
  { vidOnePreState with
    current_fr_chunk_size := 1
    frame_chunk_unix_times := [0]
    cache := [(0, (ffZeroAgg, [0]))] }

/-- C5 witness: on concrete one-frame sources of every aggregating adapter, a
cache hit returns the cached aggregate without recomputation, a cache miss
stores the sole new entry, and the second of two consecutive calls returns the
identical result (for the .vid adapter also its -1 cache hit handing back the
cached pair with the state unchanged). -/
theorem C5_witness :
    cacheFind (videoKey videoOneFrameLoaded none) videoOneFrameLoaded.cache
      = some ffZeroAgg ∧
    videoLoadChunk videoOneFrameLoaded none
      = .ok (ffZeroAgg, videoOneFrameLoaded) ∧
    cacheFind (videoKey videoOneFrameState none) videoOneFrameState.cache
      = none ∧
    videoLoadChunk videoOneFrameState none
      = .ok (ffZeroAgg, videoOneFrameLoaded) ∧
    (ffZeroAgg, videoOneFrameLoaded).2.cache
      = [(videoKey videoOneFrameState none, (ffZeroAgg, videoOneFrameLoaded).1)] ∧
    videoLoadChunk (ffZeroAgg, videoOneFrameLoaded).2 none
      = .ok (ffZeroAgg, videoOneFrameLoaded) ∧
    cacheFind (imagesKey imagesOneFrameState none) imagesOneFrameState.cache
      = some ffZeroAgg ∧
    imagesLoadChunk imagesOneFrameState none
      = .ok (ffZeroAgg, imagesOneFrameState) ∧
    cacheFind (imagesKey imagesOnePreState none) imagesOnePreState.cache
      = none ∧
    imagesLoadChunk imagesOnePreState none
      = .ok (ffZeroAgg, imagesOneFrameState) ∧
    (ffZeroAgg, imagesOneFrameState).2.cache
      = [(imagesKey imagesOnePreState none,
          (ffZeroAgg, imagesOneFrameState).1)] ∧
    imagesLoadChunk (ffZeroAgg, imagesOneFrameState).2 none
      = .ok (ffZeroAgg, imagesOneFrameState) ∧
    cacheFind (vidKey vidOneLoaded none) vidOneLoaded.cache
      = some (ffZeroAgg, ([0] : List ℚ)) ∧
    vidLoadChunk vidOneLoaded none
      = .ok (.ff ffZeroAgg,
          { vidOneLoaded with frame_chunk_unix_times := [0] }) ∧
    cacheFind (vidKey vidCachedState (some (-1))) vidCachedState.cache
      = some (ffZeroAgg, ([0] : List ℚ)) ∧
    vidLoadChunk vidCachedState (some (-1))
      = .ok (.pair ffZeroAgg [0], vidCachedState) ∧
    cacheFind (vidKey vidOnePreState none) vidOnePreState.cache = none ∧
    vidLoadChunk vidOnePreState none = .ok (.ff ffZeroAgg, vidOneLoaded) ∧
    (∃ ff ts, (VidRet.ff ffZeroAgg, vidOneLoaded).1 = VidRet.ff ff ∧
      (VidRet.ff ffZeroAgg, vidOneLoaded).2.cache
        = [(vidKey vidOnePreState none, (ff, ts))]) ∧
    vidLoadChunk (VidRet.ff ffZeroAgg, vidOneLoaded).2 none
      = .ok (VidRet.ff ffZeroAgg, vidOneLoaded) := by
  have hmiss : videoLoadChunk videoOneFrameState none
      = .ok (ffZeroAgg, videoOneFrameLoaded) := by
    simp [videoLoadChunk, videoOneFrameState, videoOneFrameLoaded, ffZeroAgg,
      videoAggLoop, computeFramesToRead, videoKey, videoStart, cacheFind,
      maxMerge, aveAcc, castDepth_zero]
  have himgmiss : imagesLoadChunk imagesOnePreState none
      = .ok (ffZeroAgg, imagesOneFrameState) := rfl
  have hvidmiss : vidLoadChunk vidOnePreState none
      = .ok (.ff ffZeroAgg, vidOneLoaded) := by
    simp [vidLoadChunk, vidOnePreState, vidOneLoaded, ffZeroAgg, vidAggLoop,
      computeFramesToRead, vidKey, vidStart, cacheFind, maxMerge, aveAcc,
      castDepth_zero]
  exact ⟨by decide, C5_cache_reuse.1 videoOneFrameLoaded none ffZeroAgg (by decide),
    by decide, hmiss,
    C5_cache_reuse.2.1 videoOneFrameState none (ffZeroAgg, videoOneFrameLoaded)
      (by decide) hmiss,
    C5_cache_reuse.2.2.1 videoOneFrameState none (ffZeroAgg, videoOneFrameLoaded)
      hmiss,
    by decide,
    C5_cache_reuse.2.2.2.2.2.2.1 imagesOneFrameState none ffZeroAgg (by decide),
    by decide, himgmiss,
    C5_cache_reuse.2.2.2.2.2.2.2.1 imagesOnePreState none
      (ffZeroAgg, imagesOneFrameState) (by decide) himgmiss,
    C5_cache_reuse.2.2.2.2.2.2.2.2.1 imagesOnePreState none
      (ffZeroAgg, imagesOneFrameState) himgmiss,
    by decide,
    C5_cache_reuse.2.2.2.2.2.2.2.2.2.1 vidOneLoaded none
      (ffZeroAgg, ([0] : List ℚ)) (by decide) (by decide),
    by decide,
    C5_cache_reuse.2.2.2.2.2.2.2.2.2.2.1 vidCachedState
      (ffZeroAgg, ([0] : List ℚ)) (by decide),
    by decide, hvidmiss,
    C5_cache_reuse.2.2.2.2.2.2.2.2.2.2.2.1 vidOnePreState none
      (VidRet.ff ffZeroAgg, vidOneLoaded) (by decide) hvidmiss,
    C5_cache_reuse.2.2.2.2.2.2.2.2.2.2.2.2 vidOnePreState none
      (VidRet.ff ffZeroAgg, vidOneLoaded) (by decide) hvidmiss⟩

lemma imagesLoadChunk_cache_le (s : ImagesState) (read : Option Int)
    (r : FFMimickInterface × ImagesState) (hlen : s.cache.length ≤ 1)
    (h : imagesLoadChunk s read = .ok r) : r.2.cache.length ≤ 1 := by
  cases hc : cacheFind (imagesKey s read) s.cache with
  | some v =>
    have hv := imagesLoadChunk_hit s read v hc
    rw [h] at hv
    simp only [Except.ok.injEq] at hv
    subst hv
    exact hlen
  | none =>
    rw [(imagesLoadChunk_miss_state s read r hc h).1]
    simp

lemma vidLoadChunk_cache_le (s : VidState) (read : Option Int)
    (r : VidRet × VidState) (hlen : s.cache.length ≤ 1)
    (h : vidLoadChunk s read = .ok r) : r.2.cache.length ≤ 1 := by
  cases hc : cacheFind (vidKey s read) s.cache with
  | some v =>
    by_cases hr : read = some (-1)
    · subst hr
      have hv := vidLoadChunk_hit_whole s v hc
      rw [h] at hv
      simp only [Except.ok.injEq] at hv
      subst hv
      exact hlen
    · have hv := vidLoadChunk_hit_chunk s read v hr hc
      rw [h] at hv
      simp only [Except.ok.injEq] at hv
      subst hv
      exact hlen
  | none =>
    obtain ⟨ff, ts, _, h2, _, _⟩ := vidLoadChunk_miss_state s read r hc h
    rw [h2]
    simp

/-- C8 (amended): every adapter's cache holds at most one entry at all times —
it starts empty (or, for the adapters whose construction runs an initial
loadChunk, with that one entry), navigation calls never touch it, and a
re-aggregating loadChunk (cache miss) rebuilds it as exactly the one new entry
— but nextChunk/prevChunk do NOT clear the cache: a stale entry survives chunk
navigation and is evicted only by the next cache-missing loadChunk. -/
theorem C8_single_slot :
    (∀ (source : List Frame) (nrows ncols : Int),
      (initVideoState source nrows ncols).cache.length = 0) ∧
    (∀ s : VideoState,
      (videoNextChunk s).cache = s.cache ∧ (videoPrevChunk s).cache = s.cache ∧
      (videoNextFrame s).cache = s.cache ∧ (videoPrevFrame s).cache = s.cache) ∧
    (∀ (s : VideoState) (read : Option Int)
        (r : FFMimickInterface × VideoState),
      s.cache.length ≤ 1 → videoLoadChunk s read = .ok r →
      r.2.cache.length ≤ 1) ∧
    (∀ (s : VideoState) (read : Option Int)
        (r : FFMimickInterface × VideoState),
      cacheFind (videoKey s read) s.cache = none →
      videoLoadChunk s read = .ok r →
      r.2.cache = [(videoKey s read, r.1)]) ∧
    (∀ s : FFState,
      (ffNextChunk s).cache = s.cache ∧ (ffPrevChunk s).cache = s.cache ∧
      (ffNextFrame s).cache = s.cache ∧ (ffPrevFrame s).cache = s.cache) ∧
    (∀ (disk : Nat → FFStructFile) (s : FFState),
      s.cache.length ≤ 1 → (ffLoadChunk disk s).2.cache.length ≤ 1) ∧
    (∀ (img_list : List Frame) (nrows ncols : Int) (st : ImagesState),
      initImagesState img_list nrows ncols = .ok st →
      st.cache.length ≤ 1) ∧
    (∀ s : ImagesState,
      (imagesNextChunk s).cache = s.cache ∧
      (imagesPrevChunk s).cache = s.cache ∧
      (imagesNextFrame s).cache = s.cache ∧
      (imagesPrevFrame s).cache = s.cache) ∧
    (∀ (s : ImagesState) (read : Option Int)
        (r : FFMimickInterface × ImagesState),
      s.cache.length ≤ 1 → imagesLoadChunk s read = .ok r →
      r.2.cache.length ≤ 1) ∧
    (∀ (s : ImagesState) (read : Option Int)
        (r : FFMimickInterface × ImagesState),
      cacheFind (imagesKey s read) s.cache = none →
      imagesLoadChunk s read = .ok r →
      r.2.cache = [(imagesKey s read, r.1)]) ∧
    (∀ (source : List (Frame × ℚ)) (nrows ncols : Int),
      (vidInitFields source nrows ncols).cache.length = 0) ∧
    (∀ s : VidState,
      (vidNextChunk s).cache = s.cache ∧ (vidPrevChunk s).cache = s.cache ∧
      (vidNextFrame s).cache = s.cache ∧ (vidPrevFrame s).cache = s.cache) ∧
    (∀ (s : VidState) (read : Option Int) (r : VidRet × VidState),
      s.cache.length ≤ 1 → vidLoadChunk s read = .ok r →
      r.2.cache.length ≤ 1) ∧
    (∀ (s : VidState) (read : Option Int) (r : VidRet × VidState),
      cacheFind (vidKey s read) s.cache = none →
      vidLoadChunk s read = .ok r →
      ∃ ff ts, r.2.cache = [(vidKey s read, (ff, ts))]) := by
  refine ⟨fun _ _ _ => rfl, fun s => ⟨rfl, rfl, rfl, rfl⟩, ?_, ?_,
    fun s => ⟨rfl, rfl, rfl, rfl⟩, ?_, ?_,
    fun s => ⟨rfl, rfl, rfl, rfl⟩, imagesLoadChunk_cache_le, ?_,
    fun _ _ _ => rfl, fun s => ⟨rfl, rfl, rfl, rfl⟩, vidLoadChunk_cache_le, ?_⟩
  · intro s read r hlen h
    cases hc : cacheFind (videoKey s read) s.cache with
    | some v =>
      have hv := videoLoadChunk_hit s read v hc
      rw [h] at hv
      simp only [Except.ok.injEq] at hv
      subst hv
      exact hlen
    | none =>
      rw [(videoLoadChunk_miss_state s read r hc h).1]
      simp
  · intro s read r hc h
    exact (videoLoadChunk_miss_state s read r hc h).1
  · intro disk s hlen
    cases hc : cacheFind s.current_ff_file s.cache with
    | some v =>
      rw [ffLoadChunk_hit disk s v hc]
      exact hlen
    | none =>
      rw [ffLoadChunk_miss disk s hc]
      simp
  · intro img_list nrows ncols st h
    unfold initImagesState at h
    split at h
    · exact absurd h (by simp)
    · cases hl : imagesLoadChunk
          { img_list := img_list, nrows := nrows, ncols := ncols,
            total_frames := (img_list.length : Int), fr_chunk_no := 64,
            total_fr_chunks := clampChunks (img_list.length : Int) 64,
            current_frame_chunk := 0, current_frame := 0,
            current_fr_chunk_size := 64, cache := [] } none with
      | ok r =>
        simp only [hl, Except.ok.injEq] at h
        rw [← h]
        exact imagesLoadChunk_cache_le _ none r (by simp) hl
      | error e =>
        simp only [hl] at h
        exact absurd h (by simp)
  · intro s read r hc h
    exact (imagesLoadChunk_miss_state s read r hc h).1
  · intro s read r hc h
    obtain ⟨ff, ts, _, h2, _, _⟩ := vidLoadChunk_miss_state s read r hc h
    exact ⟨ff, ts, h2⟩

set_option maxRecDepth 20000 in
/-- C8 counterexample: the claim says every chunk-changing call first clears the
cache, but after computing chunk 1's aggregate on the 600-frame video and then
calling nextChunk (landing on chunk 0), the cache still holds the stale entry
keyed by chunk 1 rather than the empty cache the claim requires. -/
theorem C8_counterexample :
    (videoLoadChunk video600 none).toOption.map
      (fun p => ((videoNextChunk p.2).current_frame_chunk,
                 (videoNextChunk p.2).cache.map Prod.fst))
      = some ((0 : Int), ([1] : List Int)) ∧
    ([1] : List Int) ≠ [] :=
  ⟨by decide, by decide⟩

/-- C8 witness: the single-slot hypotheses hold and are preserved on concrete
one-frame states of the video, images and .vid adapters (including the images
construction's post-initial-loadChunk cache). -/
theorem C8_witness :
    videoOneFrameLoaded.cache.length ≤ 1 ∧
    videoLoadChunk videoOneFrameLoaded none
      = .ok (ffZeroAgg, videoOneFrameLoaded) ∧
    (ffZeroAgg, videoOneFrameLoaded).2.cache.length ≤ 1 ∧
    initImagesState [[0]] 1 1 = .ok imagesOneFrameState ∧
    imagesOneFrameState.cache.length ≤ 1 ∧
    imagesLoadChunk imagesOneFrameState none
      = .ok (ffZeroAgg, imagesOneFrameState) ∧
    (ffZeroAgg, imagesOneFrameState).2.cache.length ≤ 1 ∧
    vidOneLoaded.cache.length ≤ 1 ∧
    vidLoadChunk vidOneLoaded none
      = .ok (.ff ffZeroAgg,
          { vidOneLoaded with frame_chunk_unix_times := [0] }) ∧
    (VidRet.ff ffZeroAgg,
      ({ vidOneLoaded with frame_chunk_unix_times := [0] }
        : VidState)).2.cache.length ≤ 1 := by
  have h2 : videoLoadChunk videoOneFrameLoaded none
      = .ok (ffZeroAgg, videoOneFrameLoaded) := rfl
  have h6 : imagesLoadChunk imagesOneFrameState none
      = .ok (ffZeroAgg, imagesOneFrameState) := rfl
  have h9 : vidLoadChunk vidOneLoaded none
      = .ok (.ff ffZeroAgg,
          { vidOneLoaded with frame_chunk_unix_times := [0] }) := rfl
  exact ⟨by decide, h2,
    C8_single_slot.2.2.1 videoOneFrameLoaded none (ffZeroAgg, videoOneFrameLoaded)
      (by decide) h2,
    rfl,
    C8_single_slot.2.2.2.2.2.2.1 [[0]] 1 1 imagesOneFrameState rfl,
    h6,
    C8_single_slot.2.2.2.2.2.2.2.2.1 imagesOneFrameState none
      (ffZeroAgg, imagesOneFrameState) (by decide) h6,
    by decide, h9,
    C8_single_slot.2.2.2.2.2.2.2.2.2.2.2.2.1 vidOneLoaded none
      (VidRet.ff ffZeroAgg, { vidOneLoaded with frame_chunk_unix_times := [0] })
      (by decide) h9⟩

/-- C10: for the FF adapter, a loadChunk whose current file misses the cache
resets the current frame number to 0 as a side effect, while a cache hit
returns with the whole state — the frame cursor included — unchanged, so
whether frame navigation state survives a re-aggregation depends on cache
residency. -/
theorem C10_ff_frame_reset :
    (∀ (disk : Nat → FFStructFile) (s : FFState) (v : FFStructFile),
      cacheFind s.current_ff_file s.cache = some v →
      (ffLoadChunk disk s).2 = s) ∧
    (∀ (disk : Nat → FFStructFile) (s : FFState),
      cacheFind s.current_ff_file s.cache = none →
      (ffLoadChunk disk s).2.current_frame = 0) := by
  constructor
  · intro disk s v h
    rw [ffLoadChunk_hit disk s v h]
  · intro disk s h
    rw [ffLoadChunk_miss disk s h]

/-- The pre-aggregated 256-frame archive file used in concrete FF states. -/
def ffFileZero : FFStructFile := ⟨[0], [0], 1, 1, 256⟩

/-- A one-file FF directory on disk where every name decodes to ffFileZero. -/
def constDisk : Nat → FFStructFile := fun _ => ffFileZero

/-- An FF-adapter state on file 7, frame 5, with file 7's structure cached. -/
def ffCachedState : FFState :=
  { ff_list := [7]
    current_ff_index := 0
    current_ff_file := 7
    beginning_datetime := 7
    current_frame := 5
    cache := [(7, ffFileZero)]
    ff := ffFileZero }

/-- The same FF-adapter state with an empty cache. -/
def ffUncachedState : FFState :=
  { ffCachedState with current_frame := 5, cache := [] }

/-- C10 witness: on file 7 at frame 5, a cache hit leaves the state (frame 5)
unchanged while a cache miss resets the frame cursor to 0. -/
theorem C10_witness :
    cacheFind ffCachedState.current_ff_file ffCachedState.cache
      = some ffFileZero ∧
    (ffLoadChunk constDisk ffCachedState).2 = ffCachedState ∧
    cacheFind ffUncachedState.current_ff_file ffUncachedState.cache = none ∧
    (ffLoadChunk constDisk ffUncachedState).2.current_frame = 0 :=
  ⟨by decide, C10_ff_frame_reset.1 constDisk ffCachedState ffFileZero (by decide),
   by decide, C10_ff_frame_reset.2 constDisk ffUncachedState (by decide)⟩

/-- Construction of the images adapter on a directory of two one-pixel images
(values 5 and 9), followed by a whole-source aggregation request. -/
def imagesTwoFramesRun : Except String (FFMimickInterface × ImagesState) :=
  (initImagesState [[5], [9]] 1 1).bind (fun st => imagesLoadChunk st (some (-1)))

/-- C3: on a two-image directory, loadChunk(-1) aggregates only the first image
— its maxpixel is [5] and its recorded count is 1 — although the true per-pixel
maximum over every frame in the source is [9] and the source holds 2 frames:
the loop's `img_indx >= total_frames - 1` break skips the last image, against
the docstring's promise that -1 reads all frames in. -/
theorem C3_images_last_frame_skipped :
    imagesTwoFramesRun.toOption.map
      (fun p => (p.1.maxpixel, p.2.current_fr_chunk_size))
      = some (([5] : Frame), (1 : Int)) ∧
    List.foldl maxMerge (List.replicate 1 0) [[5], [9]] = [9] ∧
    ([5] : Frame) ≠ [9] ∧
    (1 : Int) ≠ 2 :=
  ⟨by decide, by decide, by decide, by decide⟩

/-- A 256-frame all-zero .vid-adapter state on chunk 1 with an empty cache;
requesting 300 frames exhausts the stream after 128. -/
def vidTruncState : VidState :=
  { source := List.replicate 256 ([0], 0)
    nrows := 1
    ncols := 1
    total_frames := 256
    fr_chunk_no := 128
    total_fr_chunks := 2
    current_frame_chunk := 1
    current_frame := 128
    current_fr_chunk_size := 128
    frame_chunk_unix_times := []
    cache := [] }

set_option maxRecDepth 20000 in
/-- C4: mid-window decode exhaustion is NOT handled as the claim (and the dead
`if frame is None: break` check) intend.  On the .vid adapter the end-of-stream
sentinel reaches `.astype(np.uint16)` first and raises AttributeError instead
of silently truncating; and on the video adapter, where truncation IS silent,
the recorded count after processing 256 of 300 requested frames is i + 1 = 257
— one more than the 256 frames actually processed. -/
theorem C4_truncation_divergence :
    vidLoadChunk vidTruncState (some 300)
      = .error ("AttributeError: NoneType object has no attribute astype") ∧
    (videoLoadChunk videoTruncState (some 300)).toOption.map
      (fun p => p.2.current_fr_chunk_size) = some 257 ∧
    ((257 : Int) ≠ 256) :=
  ⟨rfl, by decide, by decide⟩
